import Mathlib

/-!
Shallow embedding of the trip-lifecycle and ledger-settlement engine of the
tms-backend repository (src/controllers/tripController.js,
src/controllers/disputeController.js, src/unnamed/part_000 ledger schema,
src/unnamed/part_001 report controller).

Money amounts are JavaScript floating-point numbers in the source; they are
modelled as rationals (ℚ).  Agent / user / trip identifiers are modelled as
naturals.  Request fields that may be absent are modelled as `Option`.
Non-numeric metadata values run through `parseFloat(v) || 0` in the source
and contribute 0 to the numeric folds; the embedding models that defaulting
directly.
-/

namespace Tms

/-- `direction` field of the ledger schema (src/unnamed/part_000, enum
['Credit', 'Debit']). -/
inductive Direction where
  | credit : Direction
  | debit : Direction
deriving Repr, DecidableEq

/-- `type` field of the ledger schema (src/unnamed/part_000, closed enum). -/
inductive LType where
  | tripCreated : LType
  | topUp : LType
  | virtualTopUp : LType
  | virtualExpense : LType
  | onTripPayment : LType
  | agentTransfer : LType
  | settlement : LType
  | tripClosed : LType
  | betaCredit : LType
deriving Repr, DecidableEq

/-- Trip `status` strings used by the controllers:
'Active', 'In Dispute', 'Completed'. -/
inductive TripStatus where
  | active : TripStatus
  | inDispute : TripStatus
  | completed : TripStatus
deriving Repr, DecidableEq

/-- User roles distinguished by the controllers ('Agent', 'Finance',
'Admin'). -/
inductive Role where
  | agent : Role
  | finance : Role
  | admin : Role
deriving Repr, DecidableEq

/-- Dispute `status` ('Open' / 'Resolved'). -/
inductive DisputeStatus where
  | openD : DisputeStatus
  | resolved : DisputeStatus
deriving Repr, DecidableEq

/-- A ledger document: the fields of the ledger schema in
src/unnamed/part_000 plus the extra fields the trip controller writes
(`paymentMadeBy`, `isInformational`, `deductionsAddedBy`). -/
structure LedgerEntry where
  tripId : Nat
  lrNumber : String
  description : String
  ltype : LType
  amount : ℚ
  advance : ℚ
  balance : ℚ
  agent : Nat
  bank : String
  direction : Direction
  paymentMadeBy : Option Role := none
  isInformational : Bool := false
  deductionsAddedBy : Option Nat := none
deriving Repr, DecidableEq

/-- An embedded on-trip payment (tripController.js addPayment, lines
457-464). -/
structure Payment where
  amount : ℚ
  reason : String
  mode : String
  bank : String
  addedBy : Nat
  addedByRole : Role
deriving Repr, DecidableEq

/-- The `deductions` subdocument of a trip: numeric fields cess, kata,
expenses, beta, others; free-text `othersReason`; metadata `addedBy` /
`addedByRole` recording who last saved the deductions. -/
structure Deductions where
  cess : ℚ := 0
  kata : ℚ := 0
  expenses : ℚ := 0
  beta : ℚ := 0
  others : ℚ := 0
  othersReason : String := ""
  addedBy : Option Nat := none
  addedByRole : Option Role := none
deriving Repr, DecidableEq

/-- The trip document fields the core mutations read and write. -/
structure Trip where
  id : Nat
  lrNumber : String
  isBulk : Bool
  freight : ℚ
  advance : ℚ
  balance : ℚ
  finalBalance : Option ℚ := none
  status : TripStatus
  agent : Nat
  deductions : Deductions := {}
  onTripPayments : List Payment := []
  closedBy : Option Nat := none
  lrSheet : String := "Not Received"
deriving Repr, DecidableEq

/-- A dispute document (disputeController.js). -/
structure Dispute where
  id : Nat
  tripId : Nat
  lrNumber : String
  agent : Nat
  dtype : String
  reason : String
  amount : ℚ
  status : DisputeStatus
  resolvedBy : Option Nat := none
deriving Repr, DecidableEq

/-! ## BalanceCalculator

Every balance-reading call site in the source uses the same reduce:
`ledger.reduce((sum, e) => e.direction === 'Credit' ? sum + e.amount
: sum - e.amount, 0)` (tripController.js lines 486-492, 558-564, 958-964,
739-745, 754-761, 1010-1016, 1050-1056, 1064-1070, 1107-1113, 1139-1145;
src/unnamed/part_001 lines 303-309).  It never looks at
`isInformational`. -/

/-- The signed contribution of one entry to the fold. -/
def signedAmount (e : LedgerEntry) : ℚ :=
  match e.direction with
  | Direction.credit => e.amount
  | Direction.debit => -e.amount

/-- The balance fold over a list of ledger entries, exactly as the source
reduce with initial accumulator 0. -/
def ledgerFold (entries : List LedgerEntry) : ℚ :=
  entries.foldl
    (fun s e =>
      match e.direction with
      | Direction.credit => s + e.amount
      | Direction.debit => s - e.amount)
    0

/-- `Ledger.find({ agent: a })`: the entries belonging to agent `a`. -/
def agentEntries (db : List LedgerEntry) (a : Nat) : List LedgerEntry :=
  db.filter (fun e => e.agent == a)

/-- The canonical balance of an agent: fetch the agent's entries and fold
them (e.g. getAgentPerformanceReport, src/unnamed/part_001 lines
301-309). -/
def agentBalance (db : List LedgerEntry) (a : Nat) : ℚ :=
  ledgerFold (agentEntries db a)

/-- Sum of amounts of Credit entries in a list. -/
def sumCredits (entries : List LedgerEntry) : ℚ :=
  ((entries.filter (fun e => e.direction == Direction.credit)).map
    (fun e => e.amount)).sum

/-- Sum of amounts of Debit entries in a list. -/
def sumDebits (entries : List LedgerEntry) : ℚ :=
  ((entries.filter (fun e => e.direction == Direction.debit)).map
    (fun e => e.amount)).sum

theorem ledgerFold_eq_sum_signed (entries : List LedgerEntry) :
    ledgerFold entries = (entries.map signedAmount).sum := by
  have h : ∀ (l : List LedgerEntry) (a : ℚ),
      l.foldl
        (fun s e =>
          match e.direction with
          | Direction.credit => s + e.amount
          | Direction.debit => s - e.amount)
        a = a + (l.map signedAmount).sum := by
    intro l
    induction l with
    | nil => intro a; simp
    | cons e rest ih =>
      intro a
      simp only [List.foldl_cons, List.map_cons, List.sum_cons, ih]
      cases hd : e.direction <;> simp [signedAmount, hd] <;> ring
  simpa [ledgerFold] using h entries 0

theorem ledgerFold_eq_credits_sub_debits (entries : List LedgerEntry) :
    ledgerFold entries = sumCredits entries - sumDebits entries := by
  rw [ledgerFold_eq_sum_signed]
  induction entries with
  | nil => simp [sumCredits, sumDebits]
  | cons e rest ih =>
    cases hd : e.direction <;>
      simp [sumCredits, sumDebits, List.filter_cons, hd, signedAmount,
        ih, sumCredits, sumDebits] <;>
      ring

/-! ## Deduction totals

The three mutating handlers fold `Object.entries(trip.deductions)` with
`parseFloat(val) || 0`, skipping some keys by name:
- addPayment (lines 470-473) skips only `othersReason`;
- updateDeductions (lines 682-685, 690-693) skips `othersReason`,
  `addedBy`, `addedByRole`;
- closeTrip (lines 928-931) skips `othersReason` and `beta`.
The metadata values (`addedBy`, `addedByRole`) are not numerals, so
`parseFloat(val) || 0` contributes 0 for them; the numeric fields are
cess, kata, expenses, beta, others. -/

/-- Deduction total skipping only the free-text reason (and with the
non-numeric metadata parsing to 0): used by addPayment and
updateDeductions. -/
def totalDeductionsOf (d : Deductions) : ℚ :=
  d.cess + d.kata + d.expenses + d.beta + d.others

/-- Deduction total at closure: additionally skips `beta`
(tripController.js lines 928-931). -/
def totalDeductionsClose (d : Deductions) : ℚ :=
  d.cess + d.kata + d.expenses + d.others

/-- Sum of amounts of a payment list. -/
def totalPaymentsOf (ps : List Payment) : ℚ :=
  (ps.map (fun p => p.amount)).sum

/-! ## createTrip (tripController.js lines 121-286) -/

/-- The request-body fields of createTrip that the financial core reads. -/
structure CreateTripInput where
  lrNumber : String
  routeFrom : String
  routeTo : String
  isBulk : Bool
  freightAmount : Option ℚ
  advancePaid : Option ℚ
  agentId : Option Nat
deriving Repr, DecidableEq

inductive CreateTripRes where
  | invalidInput : String → CreateTripRes
  | notFound : String → CreateTripRes
  | created : Trip → List LedgerEntry → CreateTripRes
deriving Repr, DecidableEq

/-- createTrip: validate agentId, look up the agent, compute
freight/advance/balance (forced to 0 for bulk trips), create the trip, and
if not bulk and advance > 0 append one Debit "Trip Created" ledger entry of
the advance against the creating agent. -/
def createTrip (users : List Nat) (newId : Nat) (inp : CreateTripInput) :
    CreateTripRes :=
  match inp.agentId with
  | none => CreateTripRes.invalidInput "agentId is required"
  | some aid =>
    if users.contains aid then
      let freight := if inp.isBulk then 0 else inp.freightAmount.getD 0
      let advance := if inp.isBulk then 0 else inp.advancePaid.getD 0
      let balance := freight - advance
      let trip : Trip :=
        { id := newId
          lrNumber := inp.lrNumber
          isBulk := inp.isBulk
          freight := freight
          advance := advance
          balance := balance
          status := TripStatus.active
          agent := aid }
      let rf := inp.routeFrom
      let rt := inp.routeTo
      let newEntries : List LedgerEntry :=
        if inp.isBulk = false ∧ advance > 0 then
          [{ tripId := newId
             lrNumber := inp.lrNumber
             description := s!"Trip created - {rf} to {rt} (Advance paid)"
             ltype := LType.tripCreated
             amount := advance
             advance := advance
             balance := balance
             agent := aid
             bank := "HDFC Bank"
             direction := Direction.debit }]
        else []
      CreateTripRes.created trip newEntries
    else CreateTripRes.notFound "Agent not found"

/-! ## addPayment (tripController.js lines 417-662) -/

/-- The request-body fields of addPayment. -/
structure AddPaymentInput where
  amount : ℚ
  reason : String
  mode : Option String
  bank : Option String
  agentId : Option Nat
  userRole : Option Role
  userId : Option Nat
deriving Repr, DecidableEq

inductive AddPaymentRes where
  | invalidState : String → AddPaymentRes
  | invalidInput : String → AddPaymentRes
  | ok : Trip → List LedgerEntry → AddPaymentRes
deriving Repr, DecidableEq

/-- The bank recorded on the ledger entries of a payment:
`bank || (mode === 'Cash' ? 'Cash' : 'HDFC Bank')`. -/
def ledgerBankOf (inp : AddPaymentInput) : String :=
  inp.bank.getD (if inp.mode = some "Cash" then "Cash" else "HDFC Bank")

/-- The body of addPayment once the target agent is resolved: append the
payment, recompute the trip balance, and emit the role-dependent ledger
entries (lines 452-588). -/
def addPaymentWithTarget (trip : Trip) (db : List LedgerEntry)
    (inp : AddPaymentInput) (target : Nat) : Trip × List LedgerEntry :=
  let isFinancePayment := inp.userRole = some Role.finance
  let payment : Payment :=
    { amount := inp.amount
      reason := inp.reason
      mode := inp.mode.getD "Cash"
      bank := inp.bank.getD (if inp.mode = some "Cash" then "Cash" else "")
      addedBy := inp.userId.getD target
      addedByRole := inp.userRole.getD Role.agent }
  let newPayments := trip.onTripPayments ++ [payment]
  let totalPayments := totalPaymentsOf newPayments
  let totalDeductions := totalDeductionsOf trip.deductions
  let initialBalance := trip.freight - trip.advance
  let newBalance := initialBalance - totalDeductions - totalPayments
  let trip2 := { trip with onTripPayments := newPayments, balance := newBalance }
  let rsn := inp.reason
  if isFinancePayment then
    -- Two entries against the selected agent: Credit Top-up then Debit
    -- On-Trip Payment (lines 481-531).
    let agentBal := agentBalance db target
    let e1 : LedgerEntry :=
      { tripId := trip.id
        lrNumber := trip.lrNumber
        description := "Top-up: Top up"
        ltype := LType.topUp
        amount := inp.amount
        advance := 0
        balance := agentBal + inp.amount
        agent := target
        bank := ledgerBankOf inp
        direction := Direction.credit
        paymentMadeBy := some Role.finance }
    let e2 : LedgerEntry :=
      { tripId := trip.id
        lrNumber := trip.lrNumber
        description := s!"On-trip payment: {rsn}"
        ltype := LType.onTripPayment
        amount := inp.amount
        advance := 0
        balance := trip2.balance
        agent := target
        bank := ledgerBankOf inp
        direction := Direction.debit
        paymentMadeBy := some Role.finance }
    (trip2, [e1, e2])
  else
    -- Debit against the payment maker; plus an informational Debit against
    -- the trip creator when they differ (lines 532-588).
    let e1 : LedgerEntry :=
      { tripId := trip.id
        lrNumber := trip.lrNumber
        description := s!"On-trip payment: {rsn}"
        ltype := LType.onTripPayment
        amount := inp.amount
        advance := 0
        balance := trip2.balance
        agent := target
        bank := ledgerBankOf inp
        direction := Direction.debit
        paymentMadeBy := some Role.agent }
    let tripCreatorId := trip.agent
    if tripCreatorId ≠ target then
      let creatorBal := agentBalance (db ++ [e1]) tripCreatorId
      let e2 : LedgerEntry :=
        { tripId := trip.id
          lrNumber := trip.lrNumber
          description := s!"On-trip payment (by another agent): {rsn}"
          ltype := LType.onTripPayment
          amount := inp.amount
          advance := 0
          balance := creatorBal
          agent := tripCreatorId
          bank := ledgerBankOf inp
          direction := Direction.debit
          paymentMadeBy := some Role.agent
          isInformational := true }
      (trip2, [e1, e2])
    else (trip2, [e1])

/-- addPayment: only for Active trips; Finance payments require a selected
agentId, other payments require the acting userId (lines 426-450). -/
def addPayment (trip : Trip) (db : List LedgerEntry) (inp : AddPaymentInput) :
    AddPaymentRes :=
  if trip.status ≠ TripStatus.active then
    AddPaymentRes.invalidState
      "Mid-trip payments can only be added for Active trips"
  else if inp.userRole = some Role.finance then
    match inp.agentId with
    | none =>
      AddPaymentRes.invalidInput
        "Agent selection is required for Finance payments"
    | some target =>
      let r := addPaymentWithTarget trip db inp target
      AddPaymentRes.ok r.1 r.2
  else
    match inp.userId with
    | none =>
      AddPaymentRes.invalidInput "User ID is required for Agent payments"
    | some target =>
      let r := addPaymentWithTarget trip db inp target
      AddPaymentRes.ok r.1 r.2

/-! ## updateDeductions (tripController.js lines 667-855) -/

/-- The deduction fields a PUT /deductions request may carry; absent fields
are left untouched by the object spread `{ ...trip.deductions, ...req.body }`. -/
structure DeductionsUpdate where
  cess : Option ℚ := none
  kata : Option ℚ := none
  expenses : Option ℚ := none
  beta : Option ℚ := none
  others : Option ℚ := none
  othersReason : Option String := none
  addedBy : Option Nat := none
  addedByRole : Option Role := none
deriving Repr, DecidableEq

/-- `trip.deductions = { ...trip.deductions, ...req.body }`: last-write-wins
per field. -/
def mergeDeductions (d : Deductions) (u : DeductionsUpdate) : Deductions :=
  { cess := u.cess.getD d.cess
    kata := u.kata.getD d.kata
    expenses := u.expenses.getD d.expenses
    beta := u.beta.getD d.beta
    others := u.others.getD d.others
    othersReason := u.othersReason.getD d.othersReason
    addedBy := match u.addedBy with
      | some a => some a
      | none => d.addedBy
    addedByRole := match u.addedByRole with
      | some r => some r
      | none => d.addedByRole }

/-- In-place update of the first entry matching `p` (the document found by
`Ledger.findOne` and then saved). -/
def updateFirstEntry (db : List LedgerEntry) (p : LedgerEntry → Bool)
    (f : LedgerEntry → LedgerEntry) : List LedgerEntry :=
  match db with
  | [] => []
  | e :: rest =>
    if p e then f e :: rest else e :: updateFirstEntry rest p f

/-- The `Ledger.findOne({ tripId, agent, type: 'Settlement' })` predicate. -/
def isSettlementFor (tid : Nat) (a : Nat) (e : LedgerEntry) : Bool :=
  e.tripId == tid && e.agent == a && e.ltype == LType.settlement

/-- The first save of the existing Settlement entry in updateDeductions
(lines 730-735): update amount, description and the adder metadata. -/
def settlementAmountUpdate (totalD : ℚ) (desc : String) (adder : Nat)
    (adderRole : Role) (e : LedgerEntry) : LedgerEntry :=
  { e with
    amount := totalD
    description := desc
    deductionsAddedBy := some adder
    paymentMadeBy := some adderRole }

/-- The balance-snapshot save of a Settlement entry (updateDeductions
lines 747-749, closeTrip lines 1047-1059). -/
def balanceSnapshotUpdate (bal : ℚ) (e : LedgerEntry) : LedgerEntry :=
  { e with balance := bal }

inductive UpdateDeductionsRes where
  | invalidState : String → UpdateDeductionsRes
  | ok : Trip → List LedgerEntry → UpdateDeductionsRes
deriving Repr, DecidableEq

/-- updateDeductions: reject Completed trips; merge the provided fields into
the stored deductions; recompute the trip balance; then, when the merged
total is positive and the trip is Active, upsert the Settlement ledger
entry of the deduction adder (update amount/description in place when one
exists for trip+agent+type=Settlement, else create one).  `userName` models
the `User.findById` name lookup used in the description. -/
def updateDeductions (userName : Nat → String) (trip : Trip)
    (db : List LedgerEntry) (u : DeductionsUpdate) : UpdateDeductionsRes :=
  if trip.status = TripStatus.completed then
    UpdateDeductionsRes.invalidState
      "Cannot update deductions for completed trips"
  else
    let merged := mergeDeductions trip.deductions u
    let totalDeductions := totalDeductionsOf merged
    let totalPayments := totalPaymentsOf trip.onTripPayments
    let newBalance := trip.freight - trip.advance - totalDeductions - totalPayments
    let trip2 := { trip with deductions := merged, balance := newBalance }
    -- deductionsAddedBy = req.body.addedBy || trip.deductions?.addedBy ||
    -- trip.agent, read after the merge, so the merged value covers both.
    let adder := merged.addedBy.getD trip.agent
    let adderRole := merged.addedByRole.getD Role.agent
    let db2 :=
      if totalDeductions > 0 then
        if trip2.status = TripStatus.active then
          let nm := userName adder
          let lr := trip.lrNumber
          let desc := s!"Closing deductions added for {lr} by {nm}"
          match db.find? (isSettlementFor trip.id adder) with
          | some _ =>
            -- First save: new amount/description/metadata; second save:
            -- balance recomputed from the ledger after the first save.
            let db1 := updateFirstEntry db (isSettlementFor trip.id adder)
              (settlementAmountUpdate totalDeductions desc adder adderRole)
            let bal := agentBalance db1 adder
            updateFirstEntry db1 (isSettlementFor trip.id adder)
              (balanceSnapshotUpdate bal)
          | none =>
            let bal := agentBalance db adder
            db ++
              [{ tripId := trip.id
                 lrNumber := trip.lrNumber
                 description := desc
                 ltype := LType.settlement
                 amount := totalDeductions
                 advance := 0
                 balance := bal - totalDeductions
                 agent := adder
                 bank := "HDFC Bank"
                 direction := Direction.debit
                 paymentMadeBy := some adderRole
                 deductionsAddedBy := some adder }]
        else db
      else db
    UpdateDeductionsRes.ok trip2 db2

/-! ## closeTrip (tripController.js lines 860-1231) -/

structure CloseInput where
  forceClose : Bool
  closedBy : Option Nat
  closedByRole : Option Role
deriving Repr, DecidableEq

inductive CloseRes where
  | errCreatorClose : CloseRes
  | errOpenDispute : CloseRes
  | errInsufficientBalance : ℚ → ℚ → CloseRes
  | errPayFirst : ℚ → CloseRes
  | errNegativeBalance : ℚ → CloseRes
  | okBulk : CloseRes
  | okClosed : ℚ → CloseRes
deriving Repr, DecidableEq

/-- Whether a close result is a successful close. -/
def CloseRes.isSuccess : CloseRes → Bool
  | CloseRes.okBulk => true
  | CloseRes.okClosed _ => true
  | _ => false

/-- Sum of on-trip payments whose `addedByRole` is not Finance (lines
935-937). -/
def agentPaymentsOf (trip : Trip) : ℚ :=
  totalPaymentsOf (trip.onTripPayments.filter
    (fun p => p.addedByRole ≠ Role.finance))

/-- Sum of on-trip payments whose `addedByRole` is Finance (lines
939-941). -/
def financePaymentsOf (trip : Trip) : ℚ :=
  totalPaymentsOf (trip.onTripPayments.filter
    (fun p => p.addedByRole = Role.finance))

/-- `finalBalance = initialBalance - totalDeductions - agentPayments +
financePayments` (line 950). -/
def closeFinalBalance (trip : Trip) : ℚ :=
  (trip.freight - trip.advance) - totalDeductionsClose trip.deductions
    - agentPaymentsOf trip + financePaymentsOf trip

/-- Entry 1 of the closing-deduction phase (closeTrip lines 997-1036):
create a Settlement entry for the trip creator when the creator differs
from the deduction adder and none exists yet for the creator. -/
def creatorSettlementStep (userName : Nat → String) (trip : Trip)
    (db : List LedgerEntry) : List LedgerEntry :=
  let d := trip.deductions
  let totalDeductions := totalDeductionsClose d
  let adder := d.addedBy.getD trip.agent
  let adderRole := d.addedByRole.getD Role.agent
  let creator := trip.agent
  let nm := userName adder
  let lr := trip.lrNumber
  if creator ≠ adder then
    if (db.find? (isSettlementFor trip.id creator)).isNone then
      db ++
        [{ tripId := trip.id
           lrNumber := trip.lrNumber
           description := s!"Closing deductions added by {nm} for {lr}"
           ltype := LType.settlement
           amount := totalDeductions
           advance := 0
           balance := agentBalance db creator - totalDeductions
           agent := creator
           bank := "HDFC Bank"
           direction := Direction.debit
           paymentMadeBy := some adderRole
           deductionsAddedBy := some adder }]
    else db
  else db

/-- Entry 2 of the closing-deduction phase (closeTrip lines 1038-1090):
refresh the balance snapshot of the deduction adder's Settlement entry,
creating it as a fallback when absent. -/
def adderSettlementStep (userName : Nat → String) (trip : Trip)
    (db1 : List LedgerEntry) : List LedgerEntry :=
  let d := trip.deductions
  let totalDeductions := totalDeductionsClose d
  let adder := d.addedBy.getD trip.agent
  let adderRole := d.addedByRole.getD Role.agent
  let nm := userName adder
  let lr := trip.lrNumber
  match db1.find? (isSettlementFor trip.id adder) with
  | some _ =>
    let bal := agentBalance db1 adder
    updateFirstEntry db1 (isSettlementFor trip.id adder)
      (balanceSnapshotUpdate bal)
  | none =>
    db1 ++
      [{ tripId := trip.id
         lrNumber := trip.lrNumber
         description := s!"Closing deductions added for {lr} by {nm}"
         ltype := LType.settlement
         amount := totalDeductions
         advance := 0
         balance := agentBalance db1 adder - totalDeductions
         agent := adder
         bank := "HDFC Bank"
         direction := Direction.debit
         paymentMadeBy := some adderRole
         deductionsAddedBy := some adder }]

/-- The closing-deduction Settlement entries written by closeTrip (lines
991-1094), run only when the deduction total is positive. -/
def closeSettlementPhase (userName : Nat → String) (trip : Trip)
    (db : List LedgerEntry) : List LedgerEntry :=
  if totalDeductionsClose trip.deductions > 0 then
    adderSettlementStep userName trip (creatorSettlementStep userName trip db)
  else db

/-- closeTrip: creator guard, open-dispute gate, bulk shortcut, final
balance computation with the Agent-only zero-balance validation, then the
closure ledger entries (Settlement refresh, informational "Trip Closed"
Debit against the closer, and Beta/Batta Credit refund).  Returns the
result together with the trip and ledger after the call (unchanged when the
call is rejected). -/
def closeTrip (userName : Nat → String) (trip : Trip)
    (db : List LedgerEntry) (disputes : List Dispute) (inp : CloseInput) :
    CloseRes × Trip × List LedgerEntry :=
  -- Validation: trip creator cannot close the trip (only for Agents,
  -- lines 872-875).
  if inp.closedByRole = some Role.agent ∧ inp.closedBy = some trip.agent then
    (CloseRes.errCreatorClose, trip, db)
  -- Open-dispute gate (lines 877-885).
  else if (disputes.any (fun dsp =>
      dsp.tripId == trip.id && dsp.status == DisputeStatus.openD))
      ∧ inp.forceClose = false then
    (CloseRes.errOpenDispute, trip, db)
  -- Bulk trips: mark Completed directly (lines 888-921).
  else if trip.isBulk then
    (CloseRes.okBulk,
      { trip with status := TripStatus.completed, closedBy := some trip.agent },
      db)
  else
    let finalBalance := closeFinalBalance trip
    -- Agent can only close when |finalBalance| ≤ 0.01 (lines 952-981).
    if inp.closedByRole = some Role.agent ∧ |finalBalance| > 1 / 100 then
      if finalBalance > 1 / 100 then
        -- Ledger.find({ agent: closedBy }); Mongoose drops an undefined
        -- filter value, so an absent closedBy matches every entry.
        let closerEntries := match inp.closedBy with
          | some c => agentEntries db c
          | none => db
        let closingAgentBalance := ledgerFold closerEntries
        if closingAgentBalance < finalBalance then
          (CloseRes.errInsufficientBalance closingAgentBalance finalBalance,
            trip, db)
        else (CloseRes.errPayFirst finalBalance, trip, db)
      else (CloseRes.errNegativeBalance finalBalance, trip, db)
    else
      let db1 := closeSettlementPhase userName trip db
      let closingAgentId := inp.closedBy.getD trip.agent
      let trip2 :=
        { trip with
          status := TripStatus.completed
          finalBalance := some finalBalance
          closedBy := some closingAgentId }
      let lr := trip.lrNumber
      let closedEntry : LedgerEntry :=
        { tripId := trip.id
          lrNumber := trip.lrNumber
          description := s!"Trip closed - Final settlement for {lr}"
          ltype := LType.tripClosed
          amount := finalBalance
          advance := 0
          balance := agentBalance db1 closingAgentId
          agent := closingAgentId
          bank := "HDFC Bank"
          direction := Direction.debit
          paymentMadeBy := some (inp.closedByRole.getD Role.agent)
          isInformational := true }
      let db2 := db1 ++ [closedEntry]
      let db3 :=
        if trip.deductions.beta > 0 then
          db2 ++
            [{ tripId := trip.id
               lrNumber := trip.lrNumber
               description := s!"Beta/Batta credited back for {lr}"
               ltype := LType.betaCredit
               amount := trip.deductions.beta
               advance := 0
               balance := agentBalance db2 trip.agent + trip.deductions.beta
               agent := trip.agent
               bank := "HDFC Bank"
               direction := Direction.credit }]
        else db2
      (CloseRes.okClosed finalBalance, trip2, db3)

/-! ## updateTrip (tripController.js lines 291-376) -/

/-- updateTrip: sets `status` and `lrSheet` from the request body whenever
they are provided, with no guard on the current status. -/
def updateTrip (trip : Trip) (statusUpd : Option TripStatus)
    (lrSheetUpd : Option String) : Trip :=
  let t1 := match statusUpd with
    | some s => { trip with status := s }
    | none => trip
  match lrSheetUpd with
  | some l => { t1 with lrSheet := l }
  | none => t1

/-! ## Dispute operations (disputeController.js) -/

structure CreateDisputeInput where
  tripId : Nat
  dtype : String
  reason : String
  amount : ℚ
  agentId : Option Nat
deriving Repr, DecidableEq

inductive CreateDisputeRes where
  | errNoAgent : CreateDisputeRes
  | errTripNotFound : CreateDisputeRes
  | errAgentMismatch : CreateDisputeRes
  | errNotActive : CreateDisputeRes
  | errDisputeExists : CreateDisputeRes
  | ok : Dispute → CreateDisputeRes
deriving Repr, DecidableEq

/-- createDispute (lines 79-199): require agentId; find the trip; reject
when the supplied agentId differs from the trip's agent, when the trip is
not Active, or when an Open dispute already exists; else create the Open
dispute and flip the trip status to In Dispute. -/
def createDispute (trips : List Trip) (disputes : List Dispute)
    (newDisputeId : Nat) (inp : CreateDisputeInput) :
    CreateDisputeRes × List Trip × List Dispute :=
  match inp.agentId with
  | none => (CreateDisputeRes.errNoAgent, trips, disputes)
  | some aid =>
    match trips.find? (fun t => t.id == inp.tripId) with
    | none => (CreateDisputeRes.errTripNotFound, trips, disputes)
    | some trip =>
      if trip.agent ≠ aid then
        (CreateDisputeRes.errAgentMismatch, trips, disputes)
      else if trip.status ≠ TripStatus.active then
        (CreateDisputeRes.errNotActive, trips, disputes)
      else if disputes.any (fun d =>
          d.tripId == inp.tripId && d.status == DisputeStatus.openD) then
        (CreateDisputeRes.errDisputeExists, trips, disputes)
      else
        let dsp : Dispute :=
          { id := newDisputeId
            tripId := inp.tripId
            lrNumber := trip.lrNumber
            agent := aid
            dtype := inp.dtype
            reason := inp.reason
            amount := inp.amount
            status := DisputeStatus.openD }
        let trips2 := trips.map (fun t =>
          if t.id == inp.tripId then
            { t with status := TripStatus.inDispute }
          else t)
        (CreateDisputeRes.ok dsp, trips2, disputes ++ [dsp])

inductive ResolveDisputeRes where
  | errNotFound : ResolveDisputeRes
  | errAlreadyResolved : ResolveDisputeRes
  | ok : ResolveDisputeRes
deriving Repr, DecidableEq

/-- resolveDispute (lines 204-256): find the dispute; reject when already
Resolved; else mark it Resolved and set the trip's status back to Active
unconditionally. -/
def resolveDispute (trips : List Trip) (disputes : List Dispute)
    (disputeId : Nat) (resolvedBy : Option Nat) :
    ResolveDisputeRes × List Trip × List Dispute :=
  match disputes.find? (fun d => d.id == disputeId) with
  | none => (ResolveDisputeRes.errNotFound, trips, disputes)
  | some dsp =>
    if dsp.status = DisputeStatus.resolved then
      (ResolveDisputeRes.errAlreadyResolved, trips, disputes)
    else
      let disputes2 := disputes.map (fun d =>
        if d.id == disputeId then
          { d with status := DisputeStatus.resolved, resolvedBy := resolvedBy }
        else d)
      let trips2 := trips.map (fun t =>
        if t.id == dsp.tripId then { t with status := TripStatus.active }
        else t)
      (ResolveDisputeRes.ok, trips2, disputes2)

/-! ## Helper lemmas -/

theorem ledgerFold_perm {l1 l2 : List LedgerEntry} (h : l1.Perm l2) :
    ledgerFold l1 = ledgerFold l2 := by
  rw [ledgerFold_eq_sum_signed, ledgerFold_eq_sum_signed]
  exact List.Perm.sum_eq (h.map signedAmount)

theorem agentBalance_append (db l : List LedgerEntry) (a : Nat) :
    agentBalance (db ++ l) a = agentBalance db a + ledgerFold (agentEntries l a) := by
  simp [agentBalance, agentEntries, List.filter_append,
    ledgerFold_eq_sum_signed]

theorem mem_updateFirstEntry {db : List LedgerEntry} {p : LedgerEntry → Bool}
    {f : LedgerEntry → LedgerEntry} {x : LedgerEntry}
    (hx : x ∈ updateFirstEntry db p f) :
    x ∈ db ∨ ∃ e, e ∈ db ∧ x = f e := by
  induction db with
  | nil => simp [updateFirstEntry] at hx
  | cons e rest ih =>
    by_cases he : p e
    · simp only [updateFirstEntry, if_pos he, List.mem_cons] at hx
      rcases hx with h | h
      · exact Or.inr ⟨e, List.mem_cons_self e rest, h⟩
      · exact Or.inl (List.mem_cons_of_mem e h)
    · simp only [updateFirstEntry, if_neg he, List.mem_cons] at hx
      rcases hx with h | h
      · exact Or.inl (h ▸ List.mem_cons_self e rest)
      · rcases ih h with h2 | ⟨e2, he2, hfe2⟩
        · exact Or.inl (List.mem_cons_of_mem e h2)
        · exact Or.inr ⟨e2, List.mem_cons_of_mem e he2, hfe2⟩

theorem filter_updateFirstEntry (db : List LedgerEntry)
    (p : LedgerEntry → Bool) (f : LedgerEntry → LedgerEntry)
    (hp : ∀ e, p (f e) = p e) :
    (updateFirstEntry db p f).filter p = (db.filter p).modifyHead f := by
  induction db with
  | nil => rfl
  | cons e rest ih =>
    by_cases he : p e
    · simp [updateFirstEntry, he, List.filter_cons, hp e]
    · simp [updateFirstEntry, he, List.filter_cons, ih]

theorem ledgerFold_cons (e : LedgerEntry) (l : List LedgerEntry) :
    ledgerFold (e :: l) = signedAmount e + ledgerFold l := by
  simp [ledgerFold_eq_sum_signed]

theorem agentBalance_eq_sum_ite (db : List LedgerEntry) (a : Nat) :
    agentBalance db a
      = (db.map (fun e => if e.agent == a then signedAmount e else 0)).sum := by
  induction db with
  | nil => rfl
  | cons e rest ih =>
    simp only [agentBalance, agentEntries, List.filter_cons] at *
    by_cases he : (e.agent == a)
    · have he2 : e.agent = a := by simpa using he
      simp [he, he2, ledgerFold_cons, ih]
    · have he2 : ¬e.agent = a := by simpa using he
      simp [he, he2, ih]

theorem find?_eq_head?_filter (db : List LedgerEntry)
    (p : LedgerEntry → Bool) : db.find? p = (db.filter p).head? := by
  induction db with
  | nil => rfl
  | cons e rest ih =>
    by_cases he : p e
    · rw [List.find?_cons_of_pos _ he, List.filter_cons_of_pos he]
      rfl
    · rw [List.find?_cons_of_neg _ he, List.filter_cons_of_neg he, ih]

/-- Number of Settlement ledger entries for a (trip, agent) pair. -/
def settlementCount (db : List LedgerEntry) (tid a : Nat) : Nat :=
  (db.filter (isSettlementFor tid a)).length

/-! ## Claim C1 -/

/-- C1: for every agent and every multiset of ledger entries, the canonical
balance computation returns Σ(credit amounts) − Σ(debit amounts) over
exactly that agent's entries, folding every entry of the agent — the
`isInformational` flag is ignored by the fold — and the result is
independent of the order of the entries. -/
theorem agentBalance_fold_spec (db db2 : List LedgerEntry) (a : Nat)
    (flag : LedgerEntry → Bool) (hperm : db.Perm db2) :
    agentBalance db a
        = sumCredits (agentEntries db a) - sumDebits (agentEntries db a)
    ∧ agentBalance db a = agentBalance db2 a
    ∧ agentBalance
        (db.map (fun e => { e with isInformational := flag e })) a
        = agentBalance db a := by
  refine ⟨ledgerFold_eq_credits_sub_debits _, ?_, ?_⟩
  · exact ledgerFold_perm (hperm.filter _)
  · rw [agentBalance_eq_sum_ite, agentBalance_eq_sum_ite, List.map_map]
    congr 1

/-- An example credit entry used to instantiate C1. -/
def entCredit : LedgerEntry :=
  { tripId := 1
    lrNumber := "LR1"
    description := "Top-up: Top up"
    ltype := LType.topUp
    amount := 700
    advance := 0
    balance := 700
    agent := 5
    bank := "HDFC Bank"
    direction := Direction.credit }

/-- An example debit entry used to instantiate C1. -/
def entDebit : LedgerEntry :=
  { tripId := 1
    lrNumber := "LR1"
    description := "On-trip payment: fuel"
    ltype := LType.onTripPayment
    amount := 300
    advance := 0
    balance := 400
    agent := 5
    bank := "HDFC Bank"
    direction := Direction.debit
    isInformational := true }

/-- Witness for C1 at a concrete two-entry ledger and its swap. -/
theorem agentBalance_fold_spec_witness :
    agentBalance [entCredit, entDebit] 5
        = sumCredits (agentEntries [entCredit, entDebit] 5)
          - sumDebits (agentEntries [entCredit, entDebit] 5)
    ∧ agentBalance [entCredit, entDebit] 5
        = agentBalance [entDebit, entCredit] 5
    ∧ agentBalance
        ([entCredit, entDebit].map
          (fun e => { e with isInformational := (fun _ => false) e })) 5
        = agentBalance [entCredit, entDebit] 5 :=
  agentBalance_fold_spec [entCredit, entDebit] [entDebit, entCredit] 5
    (fun _ => false) (List.Perm.swap entDebit entCredit [])

/-! ## Claim C4 -/

/-- C4: a Finance-role payment of amount A on an Active trip appends
exactly two ledger entries, both against the selected target agent: one
Credit "Top-up" of A and one Debit "On-Trip Payment" of A, whose net effect
on that agent's canonical folded balance is 0. -/
theorem addPayment_finance_two_entries (trip : Trip) (db : List LedgerEntry)
    (inp : AddPaymentInput) (a : Nat)
    (hact : trip.status = TripStatus.active)
    (hrole : inp.userRole = some Role.finance)
    (ha : inp.agentId = some a) :
    ∃ trip2 e1 e2, addPayment trip db inp = AddPaymentRes.ok trip2 [e1, e2]
      ∧ e1.direction = Direction.credit ∧ e1.ltype = LType.topUp
      ∧ e1.amount = inp.amount ∧ e1.agent = a
      ∧ e2.direction = Direction.debit ∧ e2.ltype = LType.onTripPayment
      ∧ e2.amount = inp.amount ∧ e2.agent = a
      ∧ agentBalance (db ++ [e1, e2]) a = agentBalance db a := by
  simp only [addPayment, addPaymentWithTarget, hact, hrole, ha, ne_eq,
    not_true_eq_false, if_false, ite_true, if_pos]
  refine ⟨_, _, _, rfl, rfl, rfl, rfl, rfl, rfl, rfl, rfl, rfl, ?_⟩
  rw [agentBalance_append]
  simp [agentEntries, ledgerFold_cons, ledgerFold, signedAmount]

/-- A concrete Active trip for the C4 witness. -/
def c4trip : Trip :=
  { id := 2
    lrNumber := "LR4"
    isBulk := false
    freight := 1000
    advance := 200
    balance := 800
    status := TripStatus.active
    agent := 1 }

/-- A concrete Finance payment request of 500 for the C4 witness. -/
def c4inp : AddPaymentInput :=
  { amount := 500
    reason := "fuel"
    mode := some "Cash"
    bank := none
    agentId := some 9
    userRole := some Role.finance
    userId := some 3 }

/-- Witness for C4: the Finance payment of 500 on the concrete Active trip
yields the two net-zero entries. -/
theorem addPayment_finance_two_entries_witness :
    c4trip.status = TripStatus.active
    ∧ ∃ trip2 e1 e2,
        addPayment c4trip [] c4inp = AddPaymentRes.ok trip2 [e1, e2]
        ∧ e1.direction = Direction.credit ∧ e1.ltype = LType.topUp
        ∧ e1.amount = c4inp.amount ∧ e1.agent = 9
        ∧ e2.direction = Direction.debit ∧ e2.ltype = LType.onTripPayment
        ∧ e2.amount = c4inp.amount ∧ e2.agent = 9
        ∧ agentBalance ([] ++ [e1, e2]) 9 = agentBalance [] 9 :=
  ⟨rfl, addPayment_finance_two_entries c4trip [] c4inp 9 rfl rfl rfl⟩

/-! ## Claim C5 -/

/-- C5: createTrip fails with InvalidInput when agentId is absent, with
NotFound when the agent does not exist; a non-bulk creation sets
balance = freight − advance and emits exactly one Debit "Trip Created"
entry of the advance against the creating agent iff advance > 0; a bulk
creation forces freight and advance to 0 and never emits a ledger
entry. -/
theorem createTrip_spec_thm (users : List Nat) (newId : Nat)
    (inp : CreateTripInput) :
    (inp.agentId = none →
        createTrip users newId inp
          = CreateTripRes.invalidInput "agentId is required")
    ∧ (∀ a, inp.agentId = some a → users.contains a = false →
        createTrip users newId inp = CreateTripRes.notFound "Agent not found")
    ∧ (∀ a, inp.agentId = some a → users.contains a = true →
        inp.isBulk = false →
        createTrip users newId inp = CreateTripRes.created
          { id := newId
            lrNumber := inp.lrNumber
            isBulk := false
            freight := inp.freightAmount.getD 0
            advance := inp.advancePaid.getD 0
            balance := inp.freightAmount.getD 0 - inp.advancePaid.getD 0
            status := TripStatus.active
            agent := a }
          (if inp.advancePaid.getD 0 > 0 then
            [{ tripId := newId
               lrNumber := inp.lrNumber
               description :=
                 s!"Trip created - {inp.routeFrom} to {inp.routeTo} (Advance paid)"
               ltype := LType.tripCreated
               amount := inp.advancePaid.getD 0
               advance := inp.advancePaid.getD 0
               balance := inp.freightAmount.getD 0 - inp.advancePaid.getD 0
               agent := a
               bank := "HDFC Bank"
               direction := Direction.debit }]
          else []))
    ∧ (∀ a, inp.agentId = some a → users.contains a = true →
        inp.isBulk = true →
        createTrip users newId inp = CreateTripRes.created
          { id := newId
            lrNumber := inp.lrNumber
            isBulk := true
            freight := 0
            advance := 0
            balance := 0
            status := TripStatus.active
            agent := a } []) := by
  refine ⟨?_, ?_, ?_, ?_⟩
  · intro h
    simp [createTrip, h]
  · intro a ha hu
    have hmem : a ∉ users := by simpa using hu
    simp [createTrip, ha, hmem]
  · intro a ha hu hb
    have hmem : a ∈ users := by simpa using hu
    by_cases hadv : inp.advancePaid.getD 0 > 0
    · simp [createTrip, ha, hmem, hb, hadv]
    · simp [createTrip, ha, hmem, hb, hadv]
  · intro a ha hu hb
    have hmem : a ∈ users := by simpa using hu
    simp [createTrip, ha, hmem, hb]

/-- The concrete createTrip request of the C5 witness: non-bulk,
freight 10000, advance 3000. -/
def c5inp : CreateTripInput :=
  { lrNumber := "LR5"
    routeFrom := "A"
    routeTo := "B"
    isBulk := false
    freightAmount := some 10000
    advancePaid := some 3000
    agentId := some 1 }

/-- Witness for C5: the concrete creation yields balance 7000 and one Debit
"Trip Created" entry of 3000. -/
theorem createTrip_spec_thm_witness :
    ∃ t e, createTrip [1] 10 c5inp = CreateTripRes.created t [e]
      ∧ t.balance = 7000 ∧ e.ltype = LType.tripCreated
      ∧ e.direction = Direction.debit ∧ e.amount = 3000 ∧ e.agent = 1 := by
  have h := (createTrip_spec_thm [1] 10 c5inp).2.2.1 1 rfl (by decide) rfl
  rw [if_pos (by norm_num [c5inp])] at h
  refine ⟨_, _, h, by norm_num [c5inp], rfl, rfl, by norm_num [c5inp], rfl⟩

/-! ## Claim C8 -/

/-- C8: an Agent-role closer whose id equals the trip creator's id is
rejected (creator-cannot-close) with the trip and ledger untouched;
non-Agent closers are never rejected by that rule. -/
theorem closeTrip_creator_guard_thm (un : Nat → String) (trip : Trip)
    (db : List LedgerEntry) (disputes : List Dispute) (inp : CloseInput) :
    (inp.closedByRole = some Role.agent → inp.closedBy = some trip.agent →
        closeTrip un trip db disputes inp = (CloseRes.errCreatorClose, trip, db))
    ∧ (inp.closedByRole ≠ some Role.agent →
        (closeTrip un trip db disputes inp).1 ≠ CloseRes.errCreatorClose) := by
  constructor
  · intro h1 h2
    unfold closeTrip
    rw [if_pos ⟨h1, h2⟩]
  · intro hrole
    unfold closeTrip
    rw [if_neg (fun h => hrole h.1)]
    dsimp only
    split_ifs <;> simp

/-- A concrete trip created by agent 1 for the C8 witness. -/
def c8trip : Trip :=
  { id := 8
    lrNumber := "LR8"
    isBulk := false
    freight := 100
    advance := 0
    balance := 100
    status := TripStatus.active
    agent := 1 }

/-- Close request by the creating agent with role Agent. -/
def c8inp : CloseInput :=
  { forceClose := false, closedBy := some 1, closedByRole := some Role.agent }

/-- Close request by the creating agent's id but with role Admin. -/
def c8inpAdmin : CloseInput :=
  { forceClose := false, closedBy := some 1, closedByRole := some Role.admin }

/-- Witness for C8: the creator closing their own trip with role Agent is
rejected with the state unchanged, while an Admin with the same id is not
subject to that rule. -/
theorem closeTrip_creator_guard_witness :
    closeTrip (fun _ => "N") c8trip [] [] c8inp
        = (CloseRes.errCreatorClose, c8trip, [])
    ∧ (closeTrip (fun _ => "N") c8trip [] [] c8inpAdmin).1
        ≠ CloseRes.errCreatorClose :=
  ⟨(closeTrip_creator_guard_thm (fun _ => "N") c8trip [] [] c8inp).1 rfl rfl,
   (closeTrip_creator_guard_thm (fun _ => "N") c8trip [] [] c8inpAdmin).2
     (by decide)⟩

/-! ## Claim C10 -/

/-- C10: createDispute on an existing trip with a supplied agentId that
differs from the trip's creating agent fails with the agent-mismatch error
before any state change: the trip list and the dispute list are returned
unchanged. -/
theorem createDispute_agent_mismatch_thm (trips : List Trip)
    (disputes : List Dispute) (nid : Nat) (inp : CreateDisputeInput)
    (a : Nat) (trip : Trip)
    (hagent : inp.agentId = some a)
    (hfind : trips.find? (fun t => t.id == inp.tripId) = some trip)
    (hneq : trip.agent ≠ a) :
    createDispute trips disputes nid inp
      = (CreateDisputeRes.errAgentMismatch, trips, disputes) := by
  simp [createDispute, hagent, hfind, hneq]

/-- A concrete Active trip of agent 7 for the C10 witness. -/
def c10trip : Trip :=
  { id := 1
    lrNumber := "LR10"
    isBulk := false
    freight := 100
    advance := 0
    balance := 100
    status := TripStatus.active
    agent := 7 }

/-- A dispute request for that trip with a different agent id. -/
def c10inp : CreateDisputeInput :=
  { tripId := 1, dtype := "Amount", reason := "r", amount := 50,
    agentId := some 8 }

/-- Witness for C10 at the concrete mismatching request. -/
theorem createDispute_agent_mismatch_witness :
    createDispute [c10trip] [] 3 c10inp
      = (CreateDisputeRes.errAgentMismatch, [c10trip], []) :=
  createDispute_agent_mismatch_thm [c10trip] [] 3 c10inp 8 c10trip rfl
    (by decide) (by decide)

/-! ## Claim C2 -/

/-- The final balance as worded by the spec (§4.3): `(freight − advance) −
totalDeductions − agentPayments + financePayments`, with totalDeductions
the sum of all deduction fields except the free-text reason and beta.
Stated separately from `closeFinalBalance` to compare the code's
computation against the spec's words. -/
def finalBalanceSpec (trip : Trip) : ℚ :=
  (trip.freight - trip.advance)
    - (trip.deductions.cess + trip.deductions.kata
        + trip.deductions.expenses + trip.deductions.others)
    - totalPaymentsOf (trip.onTripPayments.filter
        (fun p => p.addedByRole ≠ Role.finance))
    + totalPaymentsOf (trip.onTripPayments.filter
        (fun p => p.addedByRole = Role.finance))

/-- C2: for a non-bulk closeTrip call passing the creator and dispute
guards, the computed finalBalance equals the spec formula; for an
Agent-role closer the close succeeds iff |finalBalance| ≤ 0.01, otherwise
it is rejected reporting the outstanding amount — distinctly reporting the
closer's own insufficient ledger balance when it is below the amount
owed. -/
theorem closeTrip_finalBalance_agent_gate_thm (un : Nat → String)
    (trip : Trip) (db : List LedgerEntry) (disputes : List Dispute)
    (inp : CloseInput)
    (hbulk : trip.isBulk = false)
    (hcreator : ¬(inp.closedByRole = some Role.agent
        ∧ inp.closedBy = some trip.agent))
    (hdispute : ¬((disputes.any (fun dsp =>
        dsp.tripId == trip.id && dsp.status == DisputeStatus.openD)) = true
        ∧ inp.forceClose = false)) :
    closeFinalBalance trip = finalBalanceSpec trip
    ∧ (∀ fb, (closeTrip un trip db disputes inp).1 = CloseRes.okClosed fb →
        fb = finalBalanceSpec trip
        ∧ ((closeTrip un trip db disputes inp).2.1).finalBalance = some fb)
    ∧ (inp.closedByRole = some Role.agent →
        (((closeTrip un trip db disputes inp).1.isSuccess = true)
            ↔ |finalBalanceSpec trip| ≤ 1 / 100)
        ∧ (1 / 100 < finalBalanceSpec trip →
            (ledgerFold (match inp.closedBy with
                  | some c => agentEntries db c
                  | none => db) < finalBalanceSpec trip →
                (closeTrip un trip db disputes inp).1
                  = CloseRes.errInsufficientBalance
                      (ledgerFold (match inp.closedBy with
                        | some c => agentEntries db c
                        | none => db)) (finalBalanceSpec trip))
            ∧ (¬ledgerFold (match inp.closedBy with
                  | some c => agentEntries db c
                  | none => db) < finalBalanceSpec trip →
                (closeTrip un trip db disputes inp).1
                  = CloseRes.errPayFirst (finalBalanceSpec trip)))
        ∧ (finalBalanceSpec trip < -(1 / 100) →
            (closeTrip un trip db disputes inp).1
              = CloseRes.errNegativeBalance (finalBalanceSpec trip))) := by
  have hfb : closeFinalBalance trip = finalBalanceSpec trip := rfl
  refine ⟨hfb, ?_, ?_⟩
  · intro fb h
    rw [← hfb]
    unfold closeTrip at h ⊢
    rw [if_neg hcreator, if_neg hdispute, if_neg (by simp [hbulk])] at h ⊢
    dsimp only at h ⊢
    by_cases hcond : inp.closedByRole = some Role.agent
        ∧ 1 / 100 < |closeFinalBalance trip|
    · rw [if_pos hcond] at h
      split_ifs at h
    · rw [if_neg hcond] at h ⊢
      simp only [CloseRes.okClosed.injEq] at h
      rw [← h]
      simp
  · intro hrole
    rw [← hfb]
    refine ⟨?_, ?_, ?_⟩
    · unfold closeTrip
      rw [if_neg hcreator, if_neg hdispute, if_neg (by simp [hbulk])]
      dsimp only
      constructor
      · intro hs
        by_contra hgt
        rw [not_le] at hgt
        rw [if_pos ⟨hrole, hgt⟩] at hs
        split_ifs at hs <;> simp [CloseRes.isSuccess] at hs
      · intro hle
        rw [if_neg (fun h => absurd h.2 (not_lt.mpr hle))]
        rfl
    · intro hgt
      unfold closeTrip
      rw [if_neg hcreator, if_neg hdispute, if_neg (by simp [hbulk])]
      dsimp only
      rw [if_pos ⟨hrole, by
        rw [abs_of_pos (lt_trans (by norm_num) hgt)]
        exact hgt⟩]
      rw [if_pos hgt]
      constructor
      · intro hlt
        rw [if_pos hlt]
      · intro hlt
        rw [if_neg hlt]
    · intro hneg
      unfold closeTrip
      rw [if_neg hcreator, if_neg hdispute, if_neg (by simp [hbulk])]
      dsimp only
      have habs : 1 / 100 < |closeFinalBalance trip| := by
        rw [abs_of_neg (lt_trans hneg (by norm_num))]
        linarith
      rw [if_pos ⟨hrole, habs⟩]
      rw [if_neg (by linarith : ¬1 / 100 < closeFinalBalance trip)]

/-- A concrete balanced trip (freight 5000, advance 5000) for the C2
witness. -/
def c2trip : Trip :=
  { id := 20
    lrNumber := "LR2"
    isBulk := false
    freight := 5000
    advance := 5000
    balance := 0
    status := TripStatus.active
    agent := 1 }

/-- A close request by a non-creator agent. -/
def c2inp : CloseInput :=
  { forceClose := false, closedBy := some 2, closedByRole := some Role.agent }

/-- Witness for C2: the concrete balanced trip closes successfully for an
Agent closer. -/
theorem closeTrip_finalBalance_agent_gate_witness :
    (closeTrip (fun _ => "N") c2trip [] [] c2inp).1.isSuccess = true := by
  have h := (closeTrip_finalBalance_agent_gate_thm (fun _ => "N") c2trip [] []
    c2inp rfl (by decide) (by decide)).2.2 rfl
  exact h.1.mpr (by norm_num [finalBalanceSpec, c2trip, totalPaymentsOf])

/-! ## Claim C9 -/

/-- C9: with an Open dispute on the trip and no forceClose, closeTrip is
rejected with the open-dispute Conflict error and the state is unchanged
(provided the creator guard, which runs first, does not trigger); with
forceClose = true and role Admin the gate is bypassed and the close
proceeds to Completed. -/
theorem closeTrip_dispute_gate_thm (un : Nat → String) (trip : Trip)
    (db : List LedgerEntry) (disputes : List Dispute) (inp : CloseInput)
    (hopen : disputes.any (fun dsp =>
      dsp.tripId == trip.id && dsp.status == DisputeStatus.openD) = true) :
    (inp.forceClose = false →
        ¬(inp.closedByRole = some Role.agent
            ∧ inp.closedBy = some trip.agent) →
        closeTrip un trip db disputes inp
          = (CloseRes.errOpenDispute, trip, db))
    ∧ (inp.forceClose = true → inp.closedByRole = some Role.admin →
        (closeTrip un trip db disputes inp).1.isSuccess = true
        ∧ ((closeTrip un trip db disputes inp).2.1).status
            = TripStatus.completed) := by
  constructor
  · intro hfc hcreator
    unfold closeTrip
    rw [if_neg hcreator, if_pos ⟨hopen, hfc⟩]
  · intro hfc hrole
    unfold closeTrip
    rw [if_neg (by simp [hrole] : ¬(inp.closedByRole = some Role.agent
          ∧ inp.closedBy = some trip.agent)),
      if_neg (by simp [hfc] : ¬((disputes.any (fun dsp =>
          dsp.tripId == trip.id && dsp.status == DisputeStatus.openD)) = true
          ∧ inp.forceClose = false))]
    by_cases hb : trip.isBulk = true
    · rw [if_pos hb]
      exact ⟨rfl, rfl⟩
    · rw [if_neg hb]
      dsimp only
      rw [if_neg (by simp [hrole] : ¬(inp.closedByRole = some Role.agent
          ∧ 1 / 100 < |closeFinalBalance trip|))]
      exact ⟨rfl, rfl⟩

/-- A concrete Active trip for the C9 witness. -/
def c9trip : Trip :=
  { id := 30
    lrNumber := "LR9"
    isBulk := false
    freight := 0
    advance := 0
    balance := 0
    status := TripStatus.inDispute
    agent := 1 }

/-- The Open dispute on that trip. -/
def c9dispute : Dispute :=
  { id := 1
    tripId := 30
    lrNumber := "LR9"
    agent := 1
    dtype := "Amount"
    reason := "r"
    amount := 10
    status := DisputeStatus.openD }

/-- Close request without forceClose. -/
def c9inpPlain : CloseInput :=
  { forceClose := false, closedBy := some 2, closedByRole := some Role.admin }

/-- Admin close request with forceClose. -/
def c9inpForce : CloseInput :=
  { forceClose := true, closedBy := some 2, closedByRole := some Role.admin }

/-- Witness for C9: on the concrete disputed trip, closing without
forceClose is rejected with the Conflict error, and an Admin forceClose
succeeds. -/
theorem closeTrip_dispute_gate_witness :
    closeTrip (fun _ => "N") c9trip [] [c9dispute] c9inpPlain
      = (CloseRes.errOpenDispute, c9trip, [])
    ∧ (closeTrip (fun _ => "N") c9trip [] [c9dispute] c9inpForce).1.isSuccess
      = true :=
  ⟨(closeTrip_dispute_gate_thm (fun _ => "N") c9trip [] [c9dispute]
      c9inpPlain (by decide)).1 rfl (by decide),
   ((closeTrip_dispute_gate_thm (fun _ => "N") c9trip [] [c9dispute]
      c9inpForce (by decide)).2 rfl rfl).1⟩

/-! ## Claim C3 -/

/-- Trip of the C3 counterexample: In Dispute (not Completed), so
updateDeductions accepts it but skips the Settlement upsert. -/
def c3trip : Trip :=
  { id := 1
    lrNumber := "LR3"
    isBulk := false
    freight := 1000
    advance := 0
    balance := 1000
    status := TripStatus.inDispute
    agent := 7 }

/-- The deduction update of the C3 counterexample. -/
def c3upd : DeductionsUpdate := { cess := some 100 }

/-- C3 counterexample: on a non-Completed (In Dispute) trip the update is
accepted and the merged total is positive, yet no Settlement entry exists
afterwards — the upsert only runs for Active trips, so the claim as stated
fails. -/
theorem updateDeductions_upsert_counterexample :
    updateDeductions (fun _ => "N") c3trip [] c3upd
      = UpdateDeductionsRes.ok
          { c3trip with deductions := { cess := 100 }, balance := 900 } []
    ∧ totalDeductionsOf { cess := 100 } > 0
    ∧ settlementCount [] c3trip.id 7 = 0 := by
  refine ⟨?_, by norm_num [totalDeductionsOf], rfl⟩
  unfold updateDeductions
  rw [if_neg (by decide : ¬c3trip.status = TripStatus.completed)]
  dsimp only
  rw [if_pos (by norm_num [mergeDeductions, totalDeductionsOf, c3trip, c3upd]),
    if_neg (by decide : ¬c3trip.status = TripStatus.active)]
  norm_num [c3trip, c3upd, mergeDeductions, totalDeductionsOf,
    totalPaymentsOf, Trip.mk.injEq, Deductions.mk.injEq]

/-- C3 amended: on an *Active* trip, provided at most one Settlement entry
exists beforehand for the (trip, deduction-adder) pair, updateDeductions
merges the provided fields last-write-wins per field and leaves exactly
one Settlement entry for the pair whose amount equals the merged total
(updating an existing entry in place, else creating one). -/
theorem updateDeductions_upsert_amended (un : Nat → String) (trip : Trip)
    (db : List LedgerEntry) (u : DeductionsUpdate)
    (hact : trip.status = TripStatus.active)
    (hpos : totalDeductionsOf (mergeDeductions trip.deductions u) > 0)
    (huniq : settlementCount db trip.id
        ((mergeDeductions trip.deductions u).addedBy.getD trip.agent) ≤ 1) :
    ((mergeDeductions trip.deductions u).cess
        = u.cess.getD trip.deductions.cess)
    ∧ ((mergeDeductions trip.deductions u).kata
        = u.kata.getD trip.deductions.kata)
    ∧ ((mergeDeductions trip.deductions u).expenses
        = u.expenses.getD trip.deductions.expenses)
    ∧ ((mergeDeductions trip.deductions u).beta
        = u.beta.getD trip.deductions.beta)
    ∧ ((mergeDeductions trip.deductions u).others
        = u.others.getD trip.deductions.others)
    ∧ ∃ db2, updateDeductions un trip db u
        = UpdateDeductionsRes.ok
            { trip with
              deductions := mergeDeductions trip.deductions u
              balance := trip.freight - trip.advance
                - totalDeductionsOf (mergeDeductions trip.deductions u)
                - totalPaymentsOf trip.onTripPayments } db2
        ∧ settlementCount db2 trip.id
            ((mergeDeductions trip.deductions u).addedBy.getD trip.agent) = 1
        ∧ ∀ e ∈ db2, isSettlementFor trip.id
            ((mergeDeductions trip.deductions u).addedBy.getD trip.agent) e
              = true →
            e.amount = totalDeductionsOf (mergeDeductions trip.deductions u) := by
  refine ⟨rfl, rfl, rfl, rfl, rfl, ?_⟩
  have hncomp : ¬trip.status = TripStatus.completed := by simp [hact]
  unfold updateDeductions
  rw [if_neg hncomp]
  dsimp only
  rw [if_pos hpos, if_pos hact]
  set adder := (mergeDeductions trip.deductions u).addedBy.getD trip.agent
    with hadder
  simp only [settlementCount] at huniq
  cases hfind : db.find? (isSettlementFor trip.id adder) with
  | none =>
    rw [find?_eq_head?_filter] at hfind
    have hnil : db.filter (isSettlementFor trip.id adder) = [] := by
      cases hflt : db.filter (isSettlementFor trip.id adder) with
      | nil => rfl
      | cons y rest => simp [hflt] at hfind
    refine ⟨_, rfl, ?_, ?_⟩
    · simp only [settlementCount, List.filter_append, hnil, List.nil_append]
      simp [isSettlementFor]
    · intro e he hsett
      rcases List.mem_append.mp he with hin | hin
      · have hmem : e ∈ db.filter (isSettlementFor trip.id adder) :=
          List.mem_filter.mpr ⟨hin, hsett⟩
        rw [hnil] at hmem
        cases hmem
      · rcases List.mem_singleton.mp hin with rfl
        rfl
  | some e0 =>
    rw [find?_eq_head?_filter] at hfind
    obtain ⟨y, hy⟩ : ∃ y, db.filter (isSettlementFor trip.id adder) = [y] := by
      cases hflt : db.filter (isSettlementFor trip.id adder) with
      | nil => simp [hflt] at hfind
      | cons y rest =>
        refine ⟨y, ?_⟩
        have hlen := huniq
        rw [hflt] at hlen
        simp only [List.length_cons] at hlen
        have hrest : rest = [] := List.eq_nil_of_length_eq_zero (by omega)
        rw [hrest]
    refine ⟨_, rfl, ?_, ?_⟩
    · simp only [settlementCount]
      rw [filter_updateFirstEntry _ (isSettlementFor trip.id adder)
          (balanceSnapshotUpdate _) (fun e => rfl),
        filter_updateFirstEntry _ (isSettlementFor trip.id adder)
          (settlementAmountUpdate _ _ _ _) (fun e => rfl), hy]
      rfl
    · intro e he hsett
      have hmem := List.mem_filter.mpr ⟨he, hsett⟩
      rw [filter_updateFirstEntry _ (isSettlementFor trip.id adder)
          (balanceSnapshotUpdate _) (fun e => rfl),
        filter_updateFirstEntry _ (isSettlementFor trip.id adder)
          (settlementAmountUpdate _ _ _ _) (fun e => rfl), hy] at hmem
      dsimp only [List.modifyHead] at hmem
      rcases List.mem_singleton.mp hmem with rfl
      rfl

/-- Active trip for the two-step C3 witness. -/
def c3etrip : Trip :=
  { id := 1
    lrNumber := "L"
    isBulk := false
    freight := 5000
    advance := 0
    balance := 5000
    status := TripStatus.active
    agent := 7 }

def c3u1 : DeductionsUpdate := { cess := some 100 }

def c3u2 : DeductionsUpdate := { cess := some 150, kata := some 50 }

/-- The trip after the first deduction update {cess: 100}. -/
def c3t1x : Trip :=
  { id := 1
    lrNumber := "L"
    isBulk := false
    freight := 5000
    advance := 0
    balance := 4900
    status := TripStatus.active
    agent := 7
    deductions := { cess := 100 } }

/-- The Settlement entry created by the first deduction update. -/
def c3e1x : LedgerEntry :=
  { tripId := 1
    lrNumber := "L"
    description := "Closing deductions added for L by N"
    ltype := LType.settlement
    amount := 100
    advance := 0
    balance := -100
    agent := 7
    bank := "HDFC Bank"
    direction := Direction.debit
    paymentMadeBy := some Role.agent
    deductionsAddedBy := some 7 }

/-- Witness for the amended C3 at the spec's double-update example: the
first update {cess:100} creates one Settlement entry of 100, and the
second update {cess:150, kata:50} leaves exactly one Settlement entry
whose amount is the merged total 200 (not 300). -/
theorem updateDeductions_upsert_amended_witness :
    updateDeductions (fun _ => "N") c3etrip [] c3u1
      = UpdateDeductionsRes.ok c3t1x [c3e1x]
    ∧ totalDeductionsOf (mergeDeductions c3t1x.deductions c3u2) = 200
    ∧ ∃ db2, updateDeductions (fun _ => "N") c3t1x [c3e1x] c3u2
        = UpdateDeductionsRes.ok
            { c3t1x with
              deductions := mergeDeductions c3t1x.deductions c3u2
              balance := c3t1x.freight - c3t1x.advance
                - totalDeductionsOf (mergeDeductions c3t1x.deductions c3u2)
                - totalPaymentsOf c3t1x.onTripPayments } db2
        ∧ settlementCount db2 c3t1x.id
            ((mergeDeductions c3t1x.deductions c3u2).addedBy.getD c3t1x.agent)
            = 1
        ∧ ∀ e ∈ db2, isSettlementFor c3t1x.id
            ((mergeDeductions c3t1x.deductions c3u2).addedBy.getD c3t1x.agent) e
              = true →
            e.amount
              = totalDeductionsOf (mergeDeductions c3t1x.deductions c3u2) := by
  refine ⟨?_, ?_,
    (updateDeductions_upsert_amended (fun _ => "N") c3t1x [c3e1x] c3u2 rfl
      (by norm_num [c3t1x, c3u2, mergeDeductions, totalDeductionsOf])
      (by decide)).2.2.2.2.2⟩
  · unfold updateDeductions
    rw [if_neg (by decide : ¬c3etrip.status = TripStatus.completed)]
    dsimp only
    rw [if_pos (by norm_num [c3etrip, c3u1, mergeDeductions, totalDeductionsOf]),
      if_pos (by decide : c3etrip.status = TripStatus.active)]
    dsimp only [List.find?]
    simp only [UpdateDeductionsRes.ok.injEq]
    refine ⟨?_, ?_⟩
    · simp only [c3t1x, Trip.mk.injEq]
      norm_num [c3etrip, c3u1, mergeDeductions, totalDeductionsOf,
        totalPaymentsOf, Deductions.mk.injEq]
    · have hdesc : (toString "Closing deductions added for "
          ++ toString c3etrip.lrNumber ++ toString " by " ++ toString "N"
          ++ toString "" : String) = "Closing deductions added for L by N" :=
        rfl
      simp only [List.nil_append, List.cons.injEq, and_true, c3e1x,
        LedgerEntry.mk.injEq, hdesc]
      norm_num [c3etrip, c3u1, mergeDeductions, totalDeductionsOf,
        agentBalance, agentEntries, ledgerFold]
  · norm_num [c3t1x, c3u2, mergeDeductions, totalDeductionsOf]

/-! ## Claim C6 -/

/-- A Completed trip for the C6 counterexample. -/
def c6trip : Trip :=
  { id := 3
    lrNumber := "LR6"
    isBulk := false
    freight := 0
    advance := 0
    balance := 0
    status := TripStatus.completed
    agent := 4 }

/-- C6 counterexample: updateTrip sets the status from the request body
with no guard, so a Completed trip can be moved back to Active — Completed
is not terminal across all exposed mutating operations. -/
theorem completed_terminal_counterexample :
    c6trip.status = TripStatus.completed
    ∧ (updateTrip c6trip (some TripStatus.active) none).status
        ≠ TripStatus.completed :=
  ⟨rfl, by decide⟩

/-- C6 amended: Completed is terminal with respect to addPayment,
updateDeductions, closeTrip and createDispute (each either rejects the
trip or leaves / re-sets its status at Completed); it is not terminal for
updateTrip, which writes any requested status, nor for resolveDispute,
which unconditionally sets the trip back to Active. -/
theorem completed_preserved_amended (trip : Trip)
    (h : trip.status = TripStatus.completed) :
    (∀ db inp, addPayment trip db inp
        = AddPaymentRes.invalidState
            "Mid-trip payments can only be added for Active trips")
    ∧ (∀ un db u, updateDeductions un trip db u
        = UpdateDeductionsRes.invalidState
            "Cannot update deductions for completed trips")
    ∧ (∀ un db disputes inp,
        ((closeTrip un trip db disputes inp).2.1).status
          = TripStatus.completed)
    ∧ (∀ trips disputes nid inp,
        trips.find? (fun t => t.id == inp.tripId) = some trip →
        (createDispute trips disputes nid inp).2.1 = trips
        ∧ (createDispute trips disputes nid inp).2.2 = disputes) := by
  refine ⟨?_, ?_, ?_, ?_⟩
  · intro db inp
    unfold addPayment
    rw [if_pos (by simp [h] : trip.status ≠ TripStatus.active)]
  · intro un db u
    unfold updateDeductions
    rw [if_pos h]
  · intro un db disputes inp
    unfold closeTrip
    dsimp only
    split_ifs <;> simp [h]
  · intro trips disputes nid inp hfind
    unfold createDispute
    rcases ha : inp.agentId with _ | a
    · exact ⟨rfl, rfl⟩
    · rw [hfind]
      dsimp only
      by_cases hag : trip.agent ≠ a
      · rw [if_pos hag]
        exact ⟨rfl, rfl⟩
      · rw [if_neg hag,
          if_pos (by simp [h] : trip.status ≠ TripStatus.active)]
        exact ⟨rfl, rfl⟩

/-- A payment request for the C6 witness. -/
def c6pay : AddPaymentInput :=
  { amount := 10
    reason := "r"
    mode := none
    bank := none
    agentId := some 2
    userRole := some Role.finance
    userId := some 2 }

/-- A close request for the C6 witness. -/
def c6close : CloseInput :=
  { forceClose := false, closedBy := some 9, closedByRole := some Role.admin }

/-- Witness for the amended C6 at the concrete Completed trip. -/
theorem completed_preserved_witness :
    addPayment c6trip [] c6pay
      = AddPaymentRes.invalidState
          "Mid-trip payments can only be added for Active trips"
    ∧ ((closeTrip (fun _ => "N") c6trip [] [] c6close).2.1).status
        = TripStatus.completed :=
  ⟨(completed_preserved_amended c6trip rfl).1 [] c6pay,
   (completed_preserved_amended c6trip rfl).2.2.1 (fun _ => "N") [] [] c6close⟩

/-! ## Claim C7 -/

/-- An Active trip whose deductions exceed freight − advance, so the
computed finalBalance is negative. -/
def c7trip : Trip :=
  { id := 9
    lrNumber := "LR7"
    isBulk := false
    freight := 0
    advance := 0
    balance := 0
    status := TripStatus.active
    agent := 2
    deductions := { cess := 100 } }

/-- An Admin close request (no Agent-only balance validation). -/
def c7inp : CloseInput :=
  { forceClose := false, closedBy := some 3, closedByRole := some Role.admin }

/-- C7 counterexample: an Admin closing a trip whose finalBalance is −100
writes a "Trip Closed" ledger entry with a negative amount, refuting the
claim that every created entry has a non-negative amount. -/
theorem ledger_amount_nonneg_counterexample :
    ((closeTrip (fun _ => "N") c7trip [] [] c7inp).2.2.any
      (fun e => e.ltype == LType.tripClosed && decide (e.amount < 0)))
      = true := by
  unfold closeTrip
  rw [if_neg (by decide), if_neg (by decide), if_neg (by decide)]
  dsimp only
  rw [if_neg (by simp [c7inp])]
  dsimp only
  rw [if_neg (by norm_num [c7trip])]
  rw [List.any_append]
  simp only [List.any_cons, List.any_nil, Bool.or_false]
  rw [Bool.or_eq_true]
  refine Or.inr ?_
  simp only [Bool.and_eq_true, decide_eq_true_eq]
  refine ⟨rfl, ?_⟩
  norm_num [closeFinalBalance, c7trip, totalDeductionsClose,
    agentPaymentsOf, financePaymentsOf, totalPaymentsOf]

theorem mem_creatorSettlementStep (un : Nat → String) (trip : Trip)
    (db : List LedgerEntry) (e : LedgerEntry)
    (he : e ∈ creatorSettlementStep un trip db) :
    e ∈ db ∨ e.amount = totalDeductionsClose trip.deductions := by
  unfold creatorSettlementStep at he
  dsimp only at he
  split_ifs at he
  · rcases List.mem_append.mp he with h | h
    · exact Or.inl h
    · rcases List.mem_singleton.mp h with rfl
      exact Or.inr rfl
  · exact Or.inl he
  · exact Or.inl he

theorem mem_adderSettlementStep (un : Nat → String) (trip : Trip)
    (db1 : List LedgerEntry) (e : LedgerEntry)
    (he : e ∈ adderSettlementStep un trip db1) :
    (∃ y, y ∈ db1 ∧ e.amount = y.amount)
      ∨ e.amount = totalDeductionsClose trip.deductions := by
  unfold adderSettlementStep at he
  dsimp only at he
  rcases hfind : db1.find? (isSettlementFor trip.id
      (trip.deductions.addedBy.getD trip.agent)) with _ | e0 <;>
    rw [hfind] at he <;> dsimp only at he
  · rcases List.mem_append.mp he with h | h
    · exact Or.inl ⟨e, h, rfl⟩
    · rcases List.mem_singleton.mp h with rfl
      exact Or.inr rfl
  · rcases mem_updateFirstEntry he with h | ⟨y, hy, rfl⟩
    · exact Or.inl ⟨e, h, rfl⟩
    · exact Or.inl ⟨y, hy, rfl⟩

theorem closeSettlementPhase_amounts (un : Nat → String) (trip : Trip)
    (db : List LedgerEntry) (hdb : ∀ e ∈ db, 0 ≤ e.amount) :
    ∀ e ∈ closeSettlementPhase un trip db, 0 ≤ e.amount := by
  intro e he
  unfold closeSettlementPhase at he
  by_cases hpos : totalDeductionsClose trip.deductions > 0
  · rw [if_pos hpos] at he
    rcases mem_adderSettlementStep _ _ _ _ he with ⟨y, hy, hamt⟩ | hamt
    · rcases mem_creatorSettlementStep _ _ _ _ hy with h1 | h1
      · rw [hamt]
        exact hdb y h1
      · rw [hamt, h1]
        exact le_of_lt hpos
    · rw [hamt]
      exact le_of_lt hpos
  · rw [if_neg hpos] at he
    exact hdb e he

theorem addPaymentWithTarget_amounts (trip : Trip) (db : List LedgerEntry)
    (inp : AddPaymentInput) (target : Nat) (e : LedgerEntry)
    (he : e ∈ (addPaymentWithTarget trip db inp target).2) :
    e.amount = inp.amount := by
  unfold addPaymentWithTarget at he
  dsimp only at he
  split_ifs at he <;> dsimp only at he
  all_goals
    simp only [List.mem_cons, List.not_mem_nil, or_false] at he
  all_goals
    rcases he with rfl | rfl <;> rfl

/-- C7 amended: every ledger entry created by createTrip and
updateDeductions has a positive amount, addPayment entries carry the
(assumed non-negative) payment amount, and closeTrip preserves
non-negativity of the ledger provided the computed finalBalance is
non-negative — the "Trip Closed" entry's amount equals finalBalance, which
is negative on reachable inputs (see the counterexample). -/
theorem ledger_amount_nonneg_amended :
    (∀ users nid inp t es, createTrip users nid inp
        = CreateTripRes.created t es → ∀ e ∈ es, 0 ≤ e.amount)
    ∧ (∀ trip db inp t es, 0 ≤ inp.amount →
        addPayment trip db inp = AddPaymentRes.ok t es →
        ∀ e ∈ es, 0 ≤ e.amount)
    ∧ (∀ un trip db u t db2, (∀ e ∈ db, 0 ≤ e.amount) →
        updateDeductions un trip db u = UpdateDeductionsRes.ok t db2 →
        ∀ e ∈ db2, 0 ≤ e.amount)
    ∧ (∀ un trip db disputes inp, (∀ e ∈ db, 0 ≤ e.amount) →
        0 ≤ closeFinalBalance trip →
        ∀ e ∈ (closeTrip un trip db disputes inp).2.2, 0 ≤ e.amount) := by
  refine ⟨?_, ?_, ?_, ?_⟩
  · intro users nid inp t es hcr e he
    unfold createTrip at hcr
    rcases ha : inp.agentId with _ | a <;> rw [ha] at hcr
    · cases hcr
    · dsimp only at hcr
      by_cases hu : users.contains a = true
      · rw [if_pos hu] at hcr
        by_cases hpos : inp.isBulk = false ∧
            (if inp.isBulk then (0 : ℚ) else inp.advancePaid.getD 0) > 0
        · rw [if_pos hpos] at hcr
          cases hcr
          rcases List.mem_singleton.mp he with rfl
          exact le_of_lt hpos.2
        · rw [if_neg hpos] at hcr
          cases hcr
          cases he
      · rw [if_neg hu] at hcr
        cases hcr
  · intro trip db inp t es hamt hp e he
    unfold addPayment at hp
    by_cases h1 : trip.status ≠ TripStatus.active
    · rw [if_pos h1] at hp
      cases hp
    · rw [if_neg h1] at hp
      by_cases h2 : inp.userRole = some Role.finance
      · rw [if_pos h2] at hp
        rcases ha : inp.agentId with _ | a <;> rw [ha] at hp
        · cases hp
        · dsimp only at hp
          cases hp
          rw [addPaymentWithTarget_amounts _ _ _ _ _ he]
          exact hamt
      · rw [if_neg h2] at hp
        rcases ha : inp.userId with _ | a <;> rw [ha] at hp
        · cases hp
        · dsimp only at hp
          cases hp
          rw [addPaymentWithTarget_amounts _ _ _ _ _ he]
          exact hamt
  · intro un trip db u t db2 hdb hup e he
    unfold updateDeductions at hup
    by_cases h1 : trip.status = TripStatus.completed
    · rw [if_pos h1] at hup
      cases hup
    · rw [if_neg h1] at hup
      dsimp only at hup
      by_cases h2 : totalDeductionsOf (mergeDeductions trip.deductions u) > 0
      · rw [if_pos h2] at hup
        by_cases h3 : trip.status = TripStatus.active
        · rw [if_pos h3] at hup
          rcases hfind : db.find? (isSettlementFor trip.id
              ((mergeDeductions trip.deductions u).addedBy.getD trip.agent))
              with _ | e0 <;> rw [hfind] at hup <;> dsimp only at hup <;>
            cases hup
          · rcases List.mem_append.mp he with h | h
            · exact hdb e h
            · rcases List.mem_singleton.mp h with rfl
              exact le_of_lt h2
          · rcases mem_updateFirstEntry he with h | ⟨y, hy, rfl⟩
            · rcases mem_updateFirstEntry h with h0 | ⟨z, hz, rfl⟩
              · exact hdb e h0
              · exact le_of_lt h2
            · rcases mem_updateFirstEntry hy with h0 | ⟨z, hz, rfl⟩
              · exact hdb y h0
              · exact le_of_lt h2
        · rw [if_neg h3] at hup
          cases hup
          exact hdb e he
      · rw [if_neg h2] at hup
        cases hup
        exact hdb e he
  · intro un trip db disputes inp hdb hfb e he
    unfold closeTrip at he
    dsimp only at he
    split_ifs at he <;>
      first
        | exact hdb e he
        | (rcases List.mem_append.mp he with h | h
           · rcases List.mem_append.mp h with h2 | h2
             · exact closeSettlementPhase_amounts un trip db hdb e h2
             · rcases List.mem_singleton.mp h2 with rfl
               exact hfb
           · rcases List.mem_singleton.mp h with rfl
             exact le_of_lt (by assumption))
        | (rcases List.mem_append.mp he with h | h
           · exact closeSettlementPhase_amounts un trip db hdb e h
           · rcases List.mem_singleton.mp h with rfl
             exact hfb)

/-- A balanced trip closed by an Admin for the C7 witness. -/
def c7btrip : Trip :=
  { id := 11
    lrNumber := "LR7B"
    isBulk := false
    freight := 5000
    advance := 5000
    balance := 0
    status := TripStatus.active
    agent := 2 }

/-- Witness for the amended C7: closing the balanced trip (finalBalance 0)
over an empty ledger yields only entries with non-negative amounts. -/
theorem ledger_amount_nonneg_witness :
    ∀ e ∈ (closeTrip (fun _ => "N") c7btrip [] [] c7inp).2.2, 0 ≤ e.amount :=
  ledger_amount_nonneg_amended.2.2.2 (fun _ => "N") c7btrip [] [] c7inp
    (by simp)
    (by norm_num [closeFinalBalance, c7btrip, totalDeductionsClose,
      agentPaymentsOf, financePaymentsOf, totalPaymentsOf])

end Tms
